import Mathlib

set_option maxRecDepth 100000

/-!
Verification development for the feedarr Feed Synchronization & Caching
Engine. The definitions below are a shallow embedding of the JavaScript
source:

  * `src/config/database.js` — the Cache Store (`getCachedFeedData`,
    `setCachedFeedData`, `setFeedMetadata`);
  * `src/api/services/rssGenerator.js` — the Feed Materializer
    (`generateCalendarFeed`, `generateNotificationFeed`,
    `generateQueueFeed`, the description builders and `escapeHtml`);
  * `src/api/services/scheduler.js` — the Synchronization Scheduler
    (`updateCalendarFeed`, `updateNotificationFeed`, `updateQueueFeed`,
    `fetchAllFeeds`, `start`, `stop`).

Modelling conventions:

  * Timestamps are natural numbers (milliseconds).  `Date.now()` and
    `new Date()` at the moment a refresh runs are one parameter `now`.
  * JavaScript records with optional fields become structures of
    `Option` fields; JS truthiness on a string is `some s` with
    `s ≠ ""`, on a number `some n` with `n ≠ 0`.
  * The SQLite rows of `feed_cache` and `feed_metadata` hold at most one
    row per feed kind, so they are modelled as one `Option` row per
    kind.  `JSON.stringify`/`JSON.parse` of a structured payload is the
    identity on the structured value, so the cached column stores the
    payload itself.
  * The XML pretty-printer of the `rss` package is out of scope (spec
    §1); an `RssDoc` keeps the channel title, channel description and
    the ordered list of items with the fields the source sets
    (`title`, `description`, `url`, `guid`, `date`, `categories`).
    Locale-dependent date rendering (`toLocaleDateString`) is abstracted
    as the identity on the source date string.
  * Asynchronous sequencing: `Promise.allSettled` over the three
    per-kind refreshes, whose state footprints are disjoint per kind,
    is modelled as sequential composition.
-/

/-- The three feed kinds (`'calendar'`, `'notification'`, `'queue'`). -/
inductive FeedKind : Type
  | calendar
  | notification
  | queue
deriving DecidableEq, Repr

/-- JS truthy test for an optional string (`undefined`, `null` and `""` are falsy). -/
def strTruthy : Option String → Bool
  | some s => s ≠ ""
  | none => false

/-- JS `o || d` for an optional string: the string when truthy, else the default. -/
def jsOrS (o : Option String) (d : String) : String :=
  match o with
  | some s => if s = "" then d else s
  | none => d

/-- JS truthy test for an optional (integral) number (`0` is falsy). -/
def numTruthy : Option Int → Bool
  | some n => n ≠ 0
  | none => false

/-- JS `o || d` for an optional number rendered with `${...}`:
the decimal rendering of the number when truthy, else the default string. -/
def jsOrIntStr (o : Option Int) (d : String) : String :=
  match o with
  | some n => if n = 0 then d else toString n
  | none => d

/-- JS `o || d` for an optional natural number (used for stored columns,
`metadata.itemCount || 0` and `metadata.lastFetch || now`). -/
def jsOrN (o : Option Nat) (d : Nat) : Nat :=
  match o with
  | some n => if n = 0 then d else n
  | none => d

/-- JS `o || null` for an optional string (`metadata.errorMessage || null`):
an empty string degrades to `null`. -/
def jsStrOrNull (o : Option String) : Option String :=
  match o with
  | some s => if s = "" then none else some s
  | none => none

/-- `Array.prototype.join(sep)` on a list of strings. -/
def jsJoin (sep : String) : List String → String
  | [] => ""
  | [x] => x
  | x :: xs => x ++ sep ++ jsJoin sep xs

/-- `new Date(ms)` rendered where the source interpolates a timestamp
(`Date.now()` fallbacks); the exact rendering is irrelevant to the claims. -/
def msDate (now : Nat) : String := toString now

/-- `'&'`. -/
def ampChar : Char := Char.ofNat 38

/-- `'<'`. -/
def ltChar : Char := Char.ofNat 60

/-- `'>'`. -/
def gtChar : Char := Char.ofNat 62

/-- The double-quote character. -/
def quotChar : Char := Char.ofNat 34

/-- The single-quote character. -/
def aposChar : Char := Char.ofNat 39

/-- `String.prototype.replace(/c/g, r)` for a single-character pattern,
on the character list of the string. -/
def replaceCharL (c : Char) (r : List Char) : List Char → List Char
  | [] => []
  | x :: xs => (if x = c then r else [x]) ++ replaceCharL c r xs

/-- `RSSGenerator.escapeHtml`: `if (!text) return ''` then the five global
single-character replaces, in source order `& < > " '`. -/
def escapeHtml (s : String) : String :=
  if s = "" then "" else
    String.mk
      (replaceCharL aposChar "&#39;".data
        (replaceCharL quotChar "&quot;".data
          (replaceCharL gtChar "&gt;".data
            (replaceCharL ltChar "&lt;".data
              (replaceCharL ampChar "&amp;".data s.data)))))

/-- A calendar record as the source reads it. -/
structure Movie : Type where
  id : Option Int := none
  title : Option String := none
  overview : Option String := none
  year : Option Int := none
  status : Option String := none
  inCinemas : Option String := none
  digitalRelease : Option String := none
  physicalRelease : Option String := none
  genres : Option (List String) := none
  imdbId : Option String := none
deriving DecidableEq, Repr

/-- A notification record as the source reads it (`fields` contents are
only ever counted). -/
structure NotificationRec : Type where
  id : Option Int := none
  name : Option String := none
  implementationName : Option String := none
  configContract : Option String := none
  fields : Option (List String) := none
deriving DecidableEq, Repr

/-- The nested `quality.quality` object of a queue record. -/
structure QualityInner : Type where
  name : Option String := none
deriving DecidableEq, Repr

/-- The `quality` object of a queue record. -/
structure QualityRec : Type where
  quality : Option QualityInner := none
deriving DecidableEq, Repr

/-- A download-queue record as the source reads it. -/
structure QueueItem : Type where
  id : Option Int := none
  status : Option String := none
  size : Option Int := none
  sizeleft : Option Int := none
  quality : Option QualityRec := none
  protocol : Option String := none
  indexer : Option String := none
  added : Option String := none
  movie : Option Movie := none
deriving DecidableEq, Repr

/-- A queue response: either a bare JSON list or a `{records: [...]}` page
envelope (spec §4.2, §9). -/
inductive QueuePayload : Type
  | list (items : List QueueItem)
  | envelope (records : List QueueItem)
deriving DecidableEq, Repr

/-- `queueData?.records || queueData || []`: the envelope's records when the
`records` field is present (an array is always truthy), else the bare list. -/
def normalizeQueue : QueuePayload → List QueueItem
  | .list items => items
  | .envelope records => records

/-- One `<item>` of a materialized feed, with the fields the source passes
to `feed.item({...})`. -/
structure RssItem : Type where
  title : String
  description : String
  url : String
  guid : String
  date : String
  categories : List String
deriving DecidableEq, Repr

/-- A materialized RSS document: the per-kind channel title and
description set by `createBaseFeed`, and the ordered items.  The fixed
cross-kind boilerplate and the XML rendering are out of scope (spec §1). -/
structure RssDoc : Type where
  title : String
  description : String
  items : List RssItem
deriving DecidableEq, Repr

/-- `toFixed(1)` of the nonnegative exact rational `num / den` (`den > 0`):
the digits of `⌊num/den · 10 + 1/2⌋` — the nearest tenth, ties towards the
larger value — with the decimal point before the last digit. -/
def toFixed1Abs (num den : Int) : String :=
  let n : Int := Int.fdiv (num * 10 * 2 + den) (den * 2)
  toString (n / 10) ++ "." ++ toString (n % 10)

/-- `Number.prototype.toFixed(1)` of the exact rational `num / den`
(`den ≠ 0`), per ECMA semantics: render the absolute value to the nearest
tenth (ties to the larger) and prepend the sign.  The source computes the
progress in binary floating point; the claims only evaluate it at inputs
where that computation is exact. -/
def toFixed1 (num den : Int) : String :=
  let num := if den < 0 then -num else num
  let den := if den < 0 then -den else den
  if num < 0 then "-" ++ toFixed1Abs (-num) den else toFixed1Abs num den

/-- The `parts` array of `RSSGenerator.buildMovieDescription`: one entry
per conditionally pushed paragraph, in source order. -/
def movieDescriptionParts (movie : Movie) : List String :=
    (match movie.overview with
      | some s => if s = "" then [] else
          ["<p><strong>Overview:</strong> " ++ escapeHtml s ++ "</p>"]
      | none => []) ++
    (match movie.year with
      | some y => if y = 0 then [] else
          ["<p><strong>Year:</strong> " ++ toString y ++ "</p>"]
      | none => []) ++
    (match movie.status with
      | some s => if s = "" then [] else
          ["<p><strong>Status:</strong> " ++ s ++ "</p>"]
      | none => []) ++
    (match movie.inCinemas with
      | some s => if s = "" then [] else
          ["<p><strong>In Cinemas:</strong> " ++ s ++ "</p>"]
      | none => []) ++
    (match movie.digitalRelease with
      | some s => if s = "" then [] else
          ["<p><strong>Digital Release:</strong> " ++ s ++ "</p>"]
      | none => []) ++
    (match movie.physicalRelease with
      | some s => if s = "" then [] else
          ["<p><strong>Physical Release:</strong> " ++ s ++ "</p>"]
      | none => []) ++
    (match movie.genres with
      | some gs => if 0 < gs.length then
          ["<p><strong>Genres:</strong> " ++ jsJoin ", " gs ++ "</p>"] else []
      | none => [])

/-- `RSSGenerator.buildMovieDescription`: the joined parts, or the default
text when the array is empty (`parts.join('\\n') || '...'`). -/
def buildMovieDescription (movie : Movie) : String :=
  let joined := jsJoin "\n" (movieDescriptionParts movie)
  if joined = "" then "No additional information available." else joined

/-- The `parts` array of `RSSGenerator.buildNotificationDescription`. -/
def notificationDescriptionParts (n : NotificationRec) : List String :=
    ["<p><strong>Implementation:</strong> " ++
        escapeHtml (jsOrS n.implementationName "Unknown") ++ "</p>"] ++
    (match n.fields with
      | some fs => if 0 < fs.length then
          ["<p><strong>Configuration Fields:</strong> " ++
            toString fs.length ++ " fields configured</p>"] else []
      | none => []) ++
    (match n.configContract with
      | some s => if s = "" then [] else
          ["<p><strong>Contract:</strong> " ++ escapeHtml s ++ "</p>"]
      | none => [])

/-- `RSSGenerator.buildNotificationDescription`. -/
def buildNotificationDescription (n : NotificationRec) : String :=
  let joined := jsJoin "\n" (notificationDescriptionParts n)
  if joined = "" then "Notification configuration details." else joined

/-- The `parts` array of `RSSGenerator.buildQueueDescription`
(`movie = item.movie || {}`). -/
def queueDescriptionParts (item : QueueItem) : List String :=
  let movie := item.movie.getD {}
  ["<p><strong>Status:</strong> " ++ jsOrS item.status "Unknown" ++ "</p>"] ++
    (if numTruthy item.size && numTruthy item.sizeleft then
      ["<p><strong>Progress:</strong> " ++
        toFixed1 ((item.size.getD 0 - item.sizeleft.getD 0) * 100)
          (item.size.getD 0) ++ "%</p>"]
      else []) ++
    (match item.quality with
      | some q =>
          ["<p><strong>Quality:</strong> " ++
            jsOrS (q.quality.bind QualityInner.name) "Unknown" ++ "</p>"]
      | none => []) ++
    (match item.protocol with
      | some s => if s = "" then [] else
          ["<p><strong>Protocol:</strong> " ++ s ++ "</p>"]
      | none => []) ++
    (match item.indexer with
      | some s => if s = "" then [] else
          ["<p><strong>Indexer:</strong> " ++ s ++ "</p>"]
      | none => []) ++
    (match movie.overview with
      | some s => if s = "" then [] else
          ["<p><strong>Movie Overview:</strong> " ++ escapeHtml s ++ "</p>"]
      | none => [])

/-- `RSSGenerator.buildQueueDescription`. -/
def buildQueueDescription (item : QueueItem) : String :=
  let joined := jsJoin "\n" (queueDescriptionParts item)
  if joined = "" then "Queue item details." else joined

/-- `RSSGenerator.getMovieCategories`. -/
def getMovieCategories (movie : Movie) : List String :=
  ["Movie"] ++
  (match movie.status with
    | some s => if s = "" then [] else [s]
    | none => []) ++
  (match movie.genres with
    | some gs => if 0 < gs.length then gs.take 3 else []
    | none => [])

/-- `movie.imdbId ? imdb-url : '#'`. -/
def imdbUrl (imdbId : Option String) : String :=
  match imdbId with
  | some s => if s = "" then "#" else "https://www.imdb.com/title/" ++ s
  | none => "#"

/-- `RSSGenerator.generateCalendarFeed` (the returned document; the file
write is the scheduler-visible artifact).  `none` models a `null`
payload, rejected by the `Array.isArray` guard. -/
def generateCalendarFeed (now : Nat) (calendarData : Option (List Movie)) : RssDoc :=
  { title := "Calendar Feed"
    description := "Upcoming movies from calendar"
    items :=
      match calendarData with
      | some movies => movies.map fun movie =>
          { title := jsOrS movie.title "Unknown Movie"
            description := buildMovieDescription movie
            url := imdbUrl movie.imdbId
            guid := "calendar-" ++ jsOrIntStr movie.id (msDate now)
            date := jsOrS movie.digitalRelease
              (jsOrS movie.physicalRelease (jsOrS movie.inCinemas (msDate now)))
            categories := getMovieCategories movie }
      | none => [] }

/-- `RSSGenerator.generateNotificationFeed`. -/
def generateNotificationFeed (now : Nat)
    (notificationData : Option (List NotificationRec)) : RssDoc :=
  { title := "Notifications Feed"
    description := "System notifications and alerts"
    items :=
      match notificationData with
      | some ns => ns.map fun n =>
          { title := jsOrS n.name "System Notification"
            description := buildNotificationDescription n
            url := "#"
            guid := "notification-" ++ jsOrIntStr n.id (msDate now)
            date := msDate now
            categories :=
              (["Notification", jsOrS n.implementationName "System"]).filter
                (fun s => s ≠ "") }
      | none => [] }

/-- `RSSGenerator.generateQueueFeed`. -/
def generateQueueFeed (now : Nat) (queueData : Option (List QueueItem)) : RssDoc :=
  { title := "Queue Feed"
    description := "Download queue status and progress"
    items :=
      match queueData with
      | some items => items.map fun item =>
          let movie := item.movie.getD {}
          { title := jsOrS movie.title "Unknown Movie" ++ " - " ++
              jsOrS item.status "Unknown Status"
            description := buildQueueDescription item
            url := imdbUrl movie.imdbId
            guid := "queue-" ++ jsOrIntStr item.id (msDate now)
            date := jsOrS item.added (msDate now)
            categories := (["Queue", jsOrS item.status "Unknown"]).filter
              (fun s => s ≠ "") }
      | none => [] }

/-- One row of the `feed_cache` table for one feed kind (the `feed_type`
key is the row's position; `data` is the stored payload). -/
structure CacheRow (α : Type) : Type where
  data : α
  createdAt : Nat
  updatedAt : Nat
deriving DecidableEq, Repr

/-- `Database.getCachedFeedData`, acting on the (unique) row selected by
`where('feed_type', feedType)`.  Returns the value the JS function
returns together with the row as it stands after the call: the read
performs no write, so a stale row stays stored. -/
def getCachedFeedData {α : Type} (row : Option (CacheRow α)) (now ttl : Nat) :
    Option α × Option (CacheRow α) :=
  (match row with
    | some r => if now - r.updatedAt < ttl then some r.data else none
    | none => none,
   row)

/-- `Database.setCachedFeedData`, acting on the row selected by the
`onConflict('feed_type')` upsert: `updated_at` is reset to now, while
`created_at` is set only on first insert (the `merge` omits it). -/
def setCachedFeedData {α : Type} (row : Option (CacheRow α)) (d : α) (now : Nat) :
    CacheRow α :=
  match row with
  | some r => { data := d, createdAt := r.createdAt, updatedAt := now }
  | none => { data := d, createdAt := now, updatedAt := now }

/-- The payload type each feed kind caches: calendar and notification
responses are JSON arrays, queue responses are a bare list or a
`{records: [...]}` envelope. -/
@[reducible] def PayloadTy : FeedKind → Type
  | .calendar => List Movie
  | .notification => List NotificationRec
  | .queue => QueuePayload

/-- The `feed_cache` table: at most one row per feed kind
(`feed_type` is the primary key). -/
structure CacheState : Type where
  calendarRow : Option (CacheRow (List Movie)) := none
  notificationRow : Option (CacheRow (List NotificationRec)) := none
  queueRow : Option (CacheRow QueuePayload) := none

/-- The row of the `feed_cache` table holding feed kind `k`. -/
def CacheState.row (s : CacheState) : (k : FeedKind) → Option (CacheRow (PayloadTy k))
  | .calendar => s.calendarRow
  | .notification => s.notificationRow
  | .queue => s.queueRow

/-- Upsert of feed kind `k`'s cache row (`setCachedFeedData` dispatched to
the selected row). -/
def CacheState.put (s : CacheState) (k : FeedKind) (d : PayloadTy k) (now : Nat) :
    CacheState :=
  match k, d with
  | .calendar, d => { s with calendarRow := some (setCachedFeedData s.calendarRow d now) }
  | .notification, d => { s with notificationRow := some (setCachedFeedData s.notificationRow d now) }
  | .queue, d => { s with queueRow := some (setCachedFeedData s.queueRow d now) }

/-- The stored states of the `status` column (`'pending'` is the column
default; the scheduler writes `'success'` and `'error'`). -/
inductive FeedState : Type
  | pending
  | success
  | error
deriving DecidableEq, Repr

/-- One row of the `feed_metadata` table. -/
structure MetaRow : Type where
  lastFetch : Nat
  itemCount : Nat
  status : FeedState
  errorMessage : Option String
  updatedAt : Nat
deriving DecidableEq, Repr

/-- The argument object of `Database.setFeedMetadata`. -/
structure MetaInput : Type where
  lastFetch : Option Nat := none
  itemCount : Option Nat := none
  status : Option FeedState := none
  errorMessage : Option String := none

/-- Pointwise update of a per-kind table at one key. -/
def setAt {α : Type} (f : FeedKind → Option α) (k : FeedKind) (v : Option α) :
    FeedKind → Option α :=
  fun j => if j = k then v else f j

/-- `Database.setFeedMetadata`: an upsert whose `insert` and `merge`
branches write the same values, hence a plain overwrite of the row
(`metadata.itemCount || 0`, `metadata.status || 'success'`,
`metadata.lastFetch || now`, `metadata.errorMessage || null`). -/
def setFeedMetadata (meta : FeedKind → Option MetaRow) (k : FeedKind)
    (m : MetaInput) (now : Nat) : FeedKind → Option MetaRow :=
  setAt meta k (some
    { lastFetch := jsOrN m.lastFetch now
      itemCount := jsOrN m.itemCount 0
      status := m.status.getD .success
      errorMessage := jsStrOrNull m.errorMessage
      updatedAt := now })

/-- The scheduler-visible durable state: the two SQLite tables, the
persisted per-kind RSS artifacts (`feeds/<kind>.xml`), and the
scheduler's in-memory `lastFetchTimes` map. -/
structure World : Type where
  cache : CacheState
  meta : FeedKind → Option MetaRow
  artifact : FeedKind → Option RssDoc
  lastFetch : FeedKind → Option Nat

/-- The outcome of one per-kind refresh: the state afterwards, whether the
Remote Data Source Client was invoked, and whether the Feed Materializer
ran (the `generate*Feed` call was reached). -/
structure UpdateResult : Type where
  world : World
  remoteCalled : Bool
  materialized : Bool

/-- `Scheduler.updateCalendarFeed`.  `fetchResult` is the outcome the
remote call would have (`apiClient.getCalendar`): `Except.error msg`
models a thrown `UpstreamError` whose `error.message` is `msg`. -/
def updateCalendarFeed (now ttl : Nat) (fetchResult : Except String (List Movie))
    (w : World) : UpdateResult :=
  match (getCachedFeedData w.cache.calendarRow now ttl).1 with
  | some cachedData =>
      { world :=
          { w with
            artifact := setAt w.artifact .calendar
              (some (generateCalendarFeed now (some cachedData)))
            lastFetch := setAt w.lastFetch .calendar (some now)
            meta := setFeedMetadata w.meta .calendar
              { lastFetch := some now, itemCount := some cachedData.length,
                status := some .success } now }
        remoteCalled := false
        materialized := true }
  | none =>
      match fetchResult with
      | .ok calendarData =>
          { world :=
              { w with
                cache := w.cache.put .calendar calendarData now
                artifact := setAt w.artifact .calendar
                  (some (generateCalendarFeed now (some calendarData)))
                lastFetch := setAt w.lastFetch .calendar (some now)
                meta := setFeedMetadata w.meta .calendar
                  { lastFetch := some now, itemCount := some calendarData.length,
                    status := some .success } now }
            remoteCalled := true
            materialized := true }
      | .error msg =>
          { world :=
              { w with
                meta := setFeedMetadata w.meta .calendar
                  { lastFetch := some now, itemCount := some 0,
                    status := some .error, errorMessage := some msg } now }
            remoteCalled := true
            materialized := false }

/-- `Scheduler.updateNotificationFeed`. -/
def updateNotificationFeed (now ttl : Nat)
    (fetchResult : Except String (List NotificationRec)) (w : World) : UpdateResult :=
  match (getCachedFeedData w.cache.notificationRow now ttl).1 with
  | some cachedData =>
      { world :=
          { w with
            artifact := setAt w.artifact .notification
              (some (generateNotificationFeed now (some cachedData)))
            lastFetch := setAt w.lastFetch .notification (some now)
            meta := setFeedMetadata w.meta .notification
              { lastFetch := some now, itemCount := some cachedData.length,
                status := some .success } now }
        remoteCalled := false
        materialized := true }
  | none =>
      match fetchResult with
      | .ok notificationData =>
          { world :=
              { w with
                cache := w.cache.put .notification notificationData now
                artifact := setAt w.artifact .notification
                  (some (generateNotificationFeed now (some notificationData)))
                lastFetch := setAt w.lastFetch .notification (some now)
                meta := setFeedMetadata w.meta .notification
                  { lastFetch := some now, itemCount := some notificationData.length,
                    status := some .success } now }
            remoteCalled := true
            materialized := true }
      | .error msg =>
          { world :=
              { w with
                meta := setFeedMetadata w.meta .notification
                  { lastFetch := some now, itemCount := some 0,
                    status := some .error, errorMessage := some msg } now }
            remoteCalled := true
            materialized := false }

/-- `Scheduler.updateQueueFeed`: the raw payload is cached as received,
then normalized (`queueData?.records || queueData || []`) before
materialization and counting. -/
def updateQueueFeed (now ttl : Nat) (fetchResult : Except String QueuePayload)
    (w : World) : UpdateResult :=
  match (getCachedFeedData w.cache.queueRow now ttl).1 with
  | some cachedData =>
      { world :=
          { w with
            artifact := setAt w.artifact .queue
              (some (generateQueueFeed now (some (normalizeQueue cachedData))))
            lastFetch := setAt w.lastFetch .queue (some now)
            meta := setFeedMetadata w.meta .queue
              { lastFetch := some now,
                itemCount := some (normalizeQueue cachedData).length,
                status := some .success } now }
        remoteCalled := false
        materialized := true }
  | none =>
      match fetchResult with
      | .ok queueData =>
          { world :=
              { w with
                cache := w.cache.put .queue queueData now
                artifact := setAt w.artifact .queue
                  (some (generateQueueFeed now (some (normalizeQueue queueData))))
                lastFetch := setAt w.lastFetch .queue (some now)
                meta := setFeedMetadata w.meta .queue
                  { lastFetch := some now,
                    itemCount := some (normalizeQueue queueData).length,
                    status := some .success } now }
            remoteCalled := true
            materialized := true }
      | .error msg =>
          { world :=
              { w with
                meta := setFeedMetadata w.meta .queue
                  { lastFetch := some now, itemCount := some 0,
                    status := some .error, errorMessage := some msg } now }
            remoteCalled := true
            materialized := false }

/-- The per-kind refresh, dispatched on the feed kind. -/
def updateFeed : (k : FeedKind) → Nat → Nat → Except String (PayloadTy k) → World →
    UpdateResult
  | .calendar, now, ttl, f, w => updateCalendarFeed now ttl f w
  | .notification, now, ttl, f, w => updateNotificationFeed now ttl f w
  | .queue, now, ttl, f, w => updateQueueFeed now ttl f w

/-- The document a refresh of kind `k` materializes from payload `d`
(queue payloads are normalized first). -/
def materializeKind : (k : FeedKind) → Nat → PayloadTy k → RssDoc
  | .calendar, now, d => generateCalendarFeed now (some d)
  | .notification, now, d => generateNotificationFeed now (some d)
  | .queue, now, d => generateQueueFeed now (some (normalizeQueue d))

/-- `Scheduler.fetchAllFeeds`: `Promise.allSettled` over the three per-kind
refreshes.  Their state footprints are disjoint per kind, so the
concurrent execution is modelled as sequential composition in source
order. -/
def fetchAllFeeds (now ttl : Nat) (fc : Except String (List Movie))
    (fn : Except String (List NotificationRec)) (fq : Except String QueuePayload)
    (w : World) : World :=
  (updateQueueFeed now ttl fq
    (updateNotificationFeed now ttl fn
      (updateCalendarFeed now ttl fc w).world).world).world

/-- The scheduler's job bookkeeping: `this.jobs` (a JS `Map` from job name
to the stored job), together with the cron runtime's view — which created
jobs are currently started (`job.start()` called, no `job.stop()` yet).
Created jobs are identified by creation order. -/
structure SchedulerState : Type where
  jobs : List (String × Nat)
  activeJobs : List Nat
  nextJobId : Nat
deriving DecidableEq, Repr

/-- The scheduler as constructed: empty `jobs` map, no cron job exists. -/
def initialSchedulerState : SchedulerState :=
  { jobs := [], activeJobs := [], nextJobId := 0 }

/-- `Map.prototype.set`: overwrites the value under an existing key,
otherwise appends the binding. -/
def mapSet (m : List (String × Nat)) (key : String) (v : Nat) :
    List (String × Nat) :=
  if m.any (fun p => p.1 = key) then
    m.map (fun p => if p.1 = key then (key, v) else p)
  else m ++ [(key, v)]

/-- `Scheduler.start`: `cron.schedule(..., {scheduled: false})` creates a
fresh, unstarted job; `this.jobs.set('rss-fetcher', job)` stores it
(overwriting — not stopping — any previously stored job); `job.start()`
activates it.  The immediate `fetchAllFeeds()` call is the refresh cycle
modelled separately by `fetchAllFeeds`. -/
def SchedulerState.start (s : SchedulerState) : SchedulerState :=
  let job := s.nextJobId
  { jobs := mapSet s.jobs "rss-fetcher" job
    activeJobs := job :: s.activeJobs
    nextJobId := job + 1 }

/-- `Scheduler.stop`: `job.stop()` for every job still referenced by the
`this.jobs` map, then `this.jobs.clear()`.  A job that was displaced from
the map is not reachable here and stays active. -/
def SchedulerState.stop (s : SchedulerState) : SchedulerState :=
  { jobs := []
    activeJobs := s.activeJobs.filter (fun j => !(s.jobs.any (fun p => p.2 = j)))
    nextJobId := s.nextJobId }

/-- `needle` occurs contiguously inside `hay`. -/
def containsStr (needle hay : String) : Prop :=
  needle.data <:+: hay.data

instance (needle hay : String) : Decidable (containsStr needle hay) :=
  List.decidableInfix needle.data hay.data

/-- `s` occurs contiguously in some textual field of the materialized
document (channel title or description, or any item's title, description,
url, guid, date or category). -/
def RssDoc.containsText (d : RssDoc) (s : String) : Prop :=
  containsStr s d.title ∨ containsStr s d.description ∨
    ∃ it ∈ d.items,
      containsStr s it.title ∨ containsStr s it.description ∨
      containsStr s it.url ∨ containsStr s it.guid ∨ containsStr s it.date ∨
      ∃ c ∈ it.categories, containsStr s c

instance (d : RssDoc) (s : String) : Decidable (d.containsText s) := by
  unfold RssDoc.containsText
  infer_instance

/-- The queue record of spec §8's progress property, with the two size
fields left open: `{status: "downloading", size, sizeleft, movie: {title: "X"}}`. -/
def progressProbe (size sizeleft : Option Int) : QueueItem :=
  { status := some "downloading", size := size, sizeleft := sizeleft,
    movie := some { title := some "X" } }

/-- The empty `feed_cache` table. -/
def emptyCache : CacheState := {}

/-- A world with empty tables, no artifacts and no recorded fetch times. -/
def emptyWorld : World :=
  { cache := emptyCache, meta := fun _ => none, artifact := fun _ => none,
    lastFetch := fun _ => none }

/-- A world whose calendar cache row is fresh at time 0 (empty payload). -/
def hitWorld : World :=
  { emptyWorld with
    cache := { calendarRow := some { data := [], createdAt := 0, updatedAt := 0 } } }

/-- A feed status row recorded by an earlier successful refresh (42 items). -/
def priorSuccessRow : MetaRow :=
  { lastFetch := 5, itemCount := 42, status := .success, errorMessage := none,
    updatedAt := 5 }

/-- A world holding `priorSuccessRow` for the calendar kind and no cache. -/
def priorMetaWorld : World :=
  { emptyWorld with meta := setAt emptyWorld.meta .calendar (some priorSuccessRow) }

/-- A queue record whose raw `status` text carries HTML-meaning characters
and whose movie overview does too. -/
def taintedQueueItem : QueueItem :=
  { status := some "<script>", movie := some { overview := some "a & b" } }

/-- A notification record whose implementation name carries an ampersand. -/
def taintedNotification : NotificationRec :=
  { implementationName := some "a & b" }

theorem containsStr_refl (s : String) : containsStr s s :=
  List.infix_refl s.data

theorem containsStr_append_left {n a : String} (b : String) (h : containsStr n a) :
    containsStr n (a ++ b) := by
  unfold containsStr at h ⊢
  exact h.trans ⟨[], b.data, by simp⟩

theorem containsStr_append_right {n b : String} (a : String) (h : containsStr n b) :
    containsStr n (a ++ b) := by
  unfold containsStr at h ⊢
  exact h.trans ⟨a.data, [], by simp⟩

theorem containsStr_jsJoin {n p : String} (sep : String) {parts : List String}
    (hp : p ∈ parts) (h : containsStr n p) : containsStr n (jsJoin sep parts) := by
  induction parts with
  | nil => cases hp
  | cons x xs ih =>
    cases hp with
    | head =>
      cases xs with
      | nil => simpa [jsJoin] using h
      | cons y ys =>
        show containsStr n (p ++ sep ++ jsJoin sep (y :: ys))
        exact containsStr_append_left _ (containsStr_append_left _ h)
    | tail _ hmem =>
      cases xs with
      | nil => cases hmem
      | cons y ys =>
        show containsStr n (x ++ sep ++ jsJoin sep (y :: ys))
        exact containsStr_append_right _ (ih hmem)

theorem jsJoin_cons_ne_empty {x : String} (sep : String) (xs : List String)
    (hx : x.data ≠ []) : jsJoin sep (x :: xs) ≠ "" := by
  intro hcontra
  have hdata : (jsJoin sep (x :: xs)).data = [] := by rw [hcontra]
  cases xs with
  | nil => exact hx hdata
  | cons y ys =>
    rw [show jsJoin sep (x :: y :: ys) = x ++ sep ++ jsJoin sep (y :: ys) from rfl] at hdata
    simp [String.data_append] at hdata
    exact hx hdata.1

theorem mem_replaceCharL {a c : Char} {r l : List Char}
    (ha : a ∈ replaceCharL c r l) : a ∈ r ∨ a ∈ l := by
  induction l with
  | nil => cases ha
  | cons x xs ih =>
    rw [replaceCharL] at ha
    rcases List.mem_append.1 ha with h | h
    · by_cases hxc : x = c
      · rw [if_pos hxc] at h; exact .inl h
      · rw [if_neg hxc] at h
        rcases List.mem_singleton.1 h with rfl
        exact .inr (List.mem_cons_self _ _)
    · rcases ih h with h' | h'
      · exact .inl h'
      · exact .inr (List.mem_cons_of_mem _ h')

theorem not_mem_replaceCharL {a c : Char} {r l : List Char}
    (har : a ∉ r) (hal : a = c ∨ a ∉ l) : a ∉ replaceCharL c r l := by
  induction l with
  | nil => simp [replaceCharL]
  | cons x xs ih =>
    rw [replaceCharL]
    intro hmem
    rcases List.mem_append.1 hmem with h | h
    · by_cases hxc : x = c
      · rw [if_pos hxc] at h; exact har h
      · rw [if_neg hxc] at h
        rcases List.mem_singleton.1 h with rfl
        rcases hal with rfl | hnl
        · exact hxc rfl
        · exact hnl (List.mem_cons_self _ _)
    · refine ih ?_ h
      rcases hal with rfl | hnl
      · exact .inl rfl
      · exact .inr fun hx => hnl (List.mem_cons_of_mem _ hx)

theorem escapeHtml_no_specials (s : String) :
    ltChar ∉ (escapeHtml s).data ∧ gtChar ∉ (escapeHtml s).data ∧
    quotChar ∉ (escapeHtml s).data ∧ aposChar ∉ (escapeHtml s).data := by
  unfold escapeHtml
  by_cases hs : s = ""
  · simp [hs]
  · rw [if_neg hs]
    refine ⟨?_, ?_, ?_, ?_⟩
    · exact not_mem_replaceCharL (by decide)
        (.inr (not_mem_replaceCharL (by decide)
          (.inr (not_mem_replaceCharL (by decide)
            (.inr (not_mem_replaceCharL (by decide) (.inl rfl)))))))
    · exact not_mem_replaceCharL (by decide)
        (.inr (not_mem_replaceCharL (by decide)
          (.inr (not_mem_replaceCharL (by decide) (.inl rfl)))))
    · exact not_mem_replaceCharL (by decide)
        (.inr (not_mem_replaceCharL (by decide) (.inl rfl)))
    · exact not_mem_replaceCharL (by decide) (.inl rfl)

/-- **C1**: for every feed kind, a cache read returns the stored payload
iff an entry exists and its age `now - updatedAt` is strictly below the
configured TTL; otherwise it returns absent — and the read performs no
write, so a stale entry remains stored (until overwritten) while never
being returned as a hit. -/
theorem cache_read_hit_iff_fresh (k : FeedKind) (s : CacheState) (now ttl : Nat)
    (p : PayloadTy k) :
    ((getCachedFeedData (s.row k) now ttl).1 = some p ↔
      ∃ r, s.row k = some r ∧ now - r.updatedAt < ttl ∧ r.data = p)
    ∧ (getCachedFeedData (s.row k) now ttl).2 = s.row k := by
  refine ⟨?_, rfl⟩
  cases hr : s.row k with
  | none => simp [getCachedFeedData, hr]
  | some r =>
    by_cases hf : now - r.updatedAt < ttl <;>
      simp [getCachedFeedData, hr, hf, eq_comm]

/-- **C8**: `put(k, X)` immediately followed by `get(k)` within the TTL
window returns exactly the stored payload, for every feed kind, prior
cache state and payload. -/
theorem cache_put_get_roundtrip (k : FeedKind) (s : CacheState) (now ttl : Nat)
    (x : PayloadTy k) (h : 0 < ttl) :
    (getCachedFeedData ((s.put k x now).row k) now ttl).1 = some x := by
  cases k
  case calendar =>
    show (getCachedFeedData (some (setCachedFeedData s.calendarRow x now)) now ttl).1 =
      some x
    cases s.calendarRow <;> simp [setCachedFeedData, getCachedFeedData, h]
  case notification =>
    show (getCachedFeedData (some (setCachedFeedData s.notificationRow x now)) now ttl).1 =
      some x
    cases s.notificationRow <;> simp [setCachedFeedData, getCachedFeedData, h]
  case queue =>
    show (getCachedFeedData (some (setCachedFeedData s.queueRow x now)) now ttl).1 =
      some x
    cases s.queueRow <;> simp [setCachedFeedData, getCachedFeedData, h]

/-- Witness for C8 at a concrete input. -/
theorem cache_put_get_roundtrip_witness :
    (getCachedFeedData ((emptyCache.put .calendar [] 0).row .calendar) 0 600000).1 =
      some [] :=
  cache_put_get_roundtrip .calendar emptyCache 0 600000 [] (by decide)

/-- **C9**: materializing an empty (`[]`) or absent (`null`) payload is not
an error, for each feed kind: the produced document has zero items and the
fixed per-kind channel title and description. -/
theorem materialize_empty_or_absent (now : Nat) :
    generateCalendarFeed now none =
      { title := "Calendar Feed",
        description := "Upcoming movies from calendar", items := [] }
    ∧ generateCalendarFeed now (some []) =
      { title := "Calendar Feed",
        description := "Upcoming movies from calendar", items := [] }
    ∧ generateNotificationFeed now none =
      { title := "Notifications Feed",
        description := "System notifications and alerts", items := [] }
    ∧ generateNotificationFeed now (some []) =
      { title := "Notifications Feed",
        description := "System notifications and alerts", items := [] }
    ∧ generateQueueFeed now none =
      { title := "Queue Feed",
        description := "Download queue status and progress", items := [] }
    ∧ generateQueueFeed now (some []) =
      { title := "Queue Feed",
        description := "Download queue status and progress", items := [] } :=
  ⟨rfl, rfl, rfl, rfl, rfl, rfl⟩

/-- **C5**: the source's `start()` is not idempotent (the slip spec §9
flags).  Starting twice creates and starts a second cron job while the
first — displaced from the `jobs` map without `job.stop()` — keeps
running: two recurring jobs are concurrently active although the map
names one, and a subsequent `stop()` can only stop the mapped one. -/
theorem start_twice_two_active_jobs :
    (initialSchedulerState.start.start).activeJobs.length = 2
    ∧ (initialSchedulerState.start.start).jobs.length = 1
    ∧ (initialSchedulerState.start.start.stop).activeJobs.length = 1 := by
  decide

/-- **C2**: when the per-kind refresh finds a fresh cache entry, the Remote
Data Source Client is never invoked for that kind during the refresh; the
cached payload is materialized instead (for any would-be fetch outcome). -/
theorem cache_hit_skips_remote (k : FeedKind) (now ttl : Nat)
    (f : Except String (PayloadTy k)) (w : World) (d : PayloadTy k)
    (h : (getCachedFeedData (w.cache.row k) now ttl).1 = some d) :
    (updateFeed k now ttl f w).remoteCalled = false
    ∧ (updateFeed k now ttl f w).materialized = true
    ∧ (updateFeed k now ttl f w).world.artifact k = some (materializeKind k now d) := by
  cases k
  case calendar =>
    have h' : (getCachedFeedData w.cache.calendarRow now ttl).1 = some d := h
    rw [show updateFeed FeedKind.calendar now ttl f w = updateCalendarFeed now ttl f w from rfl]
    unfold updateCalendarFeed
    rw [h']
    simp [materializeKind, setAt]
  case notification =>
    have h' : (getCachedFeedData w.cache.notificationRow now ttl).1 = some d := h
    rw [show updateFeed FeedKind.notification now ttl f w = updateNotificationFeed now ttl f w from rfl]
    unfold updateNotificationFeed
    rw [h']
    simp [materializeKind, setAt]
  case queue =>
    have h' : (getCachedFeedData w.cache.queueRow now ttl).1 = some d := h
    rw [show updateFeed FeedKind.queue now ttl f w = updateQueueFeed now ttl f w from rfl]
    unfold updateQueueFeed
    rw [h']
    simp [materializeKind, setAt]

/-- Witness for C2 at a concrete input: a fresh calendar cache row at time
0 suppresses the remote call even though the upstream would fail. -/
theorem cache_hit_skips_remote_witness :
    (updateFeed .calendar 0 600000 (Except.error "upstream down") hitWorld).remoteCalled =
      false
    ∧ (updateFeed .calendar 0 600000 (Except.error "upstream down") hitWorld).materialized =
      true
    ∧ (updateFeed .calendar 0 600000 (Except.error "upstream down")
        hitWorld).world.artifact .calendar = some (materializeKind .calendar 0 []) :=
  cache_hit_skips_remote .calendar 0 600000 (Except.error "upstream down") hitWorld []
    (by decide)

/-- **C3**: if the fetch step of a refresh fails, materialization is
skipped, the recorded FeedStatus has state `error` carrying the failure
message (with `itemCount` 0), and every previously persisted artifact —
in particular the failing kind's — is left unchanged. -/
theorem fetch_failure_preserves_artifact (k : FeedKind) (now ttl : Nat) (msg : String)
    (w : World)
    (hmiss : (getCachedFeedData (w.cache.row k) now ttl).1 = none) (hmsg : msg ≠ "") :
    (updateFeed k now ttl (Except.error msg) w).materialized = false
    ∧ (updateFeed k now ttl (Except.error msg) w).world.artifact = w.artifact
    ∧ (updateFeed k now ttl (Except.error msg) w).world.meta k =
        some { lastFetch := now, itemCount := 0, status := FeedState.error,
               errorMessage := some msg, updatedAt := now } := by
  cases k
  case calendar =>
    have h' : (getCachedFeedData w.cache.calendarRow now ttl).1 = none := hmiss
    rw [show updateFeed FeedKind.calendar now ttl (Except.error msg) w =
      updateCalendarFeed now ttl (Except.error msg) w from rfl]
    unfold updateCalendarFeed
    rw [h']
    simp [setFeedMetadata, setAt, jsOrN, jsStrOrNull, hmsg]
  case notification =>
    have h' : (getCachedFeedData w.cache.notificationRow now ttl).1 = none := hmiss
    rw [show updateFeed FeedKind.notification now ttl (Except.error msg) w =
      updateNotificationFeed now ttl (Except.error msg) w from rfl]
    unfold updateNotificationFeed
    rw [h']
    simp [setFeedMetadata, setAt, jsOrN, jsStrOrNull, hmsg]
  case queue =>
    have h' : (getCachedFeedData w.cache.queueRow now ttl).1 = none := hmiss
    rw [show updateFeed FeedKind.queue now ttl (Except.error msg) w =
      updateQueueFeed now ttl (Except.error msg) w from rfl]
    unfold updateQueueFeed
    rw [h']
    simp [setFeedMetadata, setAt, jsOrN, jsStrOrNull, hmsg]

/-- Witness for C3 at a concrete input. -/
theorem fetch_failure_preserves_artifact_witness :
    (updateFeed .calendar 7 600000 (Except.error "boom") emptyWorld).materialized = false
    ∧ (updateFeed .calendar 7 600000 (Except.error "boom") emptyWorld).world.artifact =
      emptyWorld.artifact
    ∧ (updateFeed .calendar 7 600000 (Except.error "boom") emptyWorld).world.meta .calendar =
        some { lastFetch := 7, itemCount := 0, status := FeedState.error,
               errorMessage := some "boom", updatedAt := 7 } :=
  fetch_failure_preserves_artifact .calendar 7 600000 "boom" emptyWorld (by decide)
    (by decide)

/-- **C10**: a failed refresh writes a FeedStatus whose `itemCount` is 0,
overwriting whatever count a previous successful refresh had recorded. -/
theorem refresh_failure_zeroes_item_count (k : FeedKind) (now ttl : Nat) (msg : String)
    (w : World) (prior : MetaRow) (hprior : w.meta k = some prior)
    (hmiss : (getCachedFeedData (w.cache.row k) now ttl).1 = none) :
    ((updateFeed k now ttl (Except.error msg) w).world.meta k).map MetaRow.itemCount =
      some 0 := by
  cases k
  case calendar =>
    have h' : (getCachedFeedData w.cache.calendarRow now ttl).1 = none := hmiss
    rw [show updateFeed FeedKind.calendar now ttl (Except.error msg) w =
      updateCalendarFeed now ttl (Except.error msg) w from rfl]
    unfold updateCalendarFeed
    rw [h']
    simp [setFeedMetadata, setAt, jsOrN]
  case notification =>
    have h' : (getCachedFeedData w.cache.notificationRow now ttl).1 = none := hmiss
    rw [show updateFeed FeedKind.notification now ttl (Except.error msg) w =
      updateNotificationFeed now ttl (Except.error msg) w from rfl]
    unfold updateNotificationFeed
    rw [h']
    simp [setFeedMetadata, setAt, jsOrN]
  case queue =>
    have h' : (getCachedFeedData w.cache.queueRow now ttl).1 = none := hmiss
    rw [show updateFeed FeedKind.queue now ttl (Except.error msg) w =
      updateQueueFeed now ttl (Except.error msg) w from rfl]
    unfold updateQueueFeed
    rw [h']
    simp [setFeedMetadata, setAt, jsOrN]

/-- Witness for C10: a prior successful status with 42 items is overwritten
by an `itemCount` of 0 on failure. -/
theorem refresh_failure_zeroes_item_count_witness :
    ((updateFeed .calendar 10 600000 (Except.error "boom")
        priorMetaWorld).world.meta .calendar).map MetaRow.itemCount = some 0 :=
  refresh_failure_zeroes_item_count .calendar 10 600000 "boom" priorMetaWorld
    priorSuccessRow (by decide) (by decide)

theorem updateCalendarFeed_foreign (now ttl : Nat) (f : Except String (List Movie))
    (w : World) :
    (updateCalendarFeed now ttl f w).world.meta .notification = w.meta .notification
    ∧ (updateCalendarFeed now ttl f w).world.meta .queue = w.meta .queue
    ∧ (updateCalendarFeed now ttl f w).world.artifact .notification =
        w.artifact .notification
    ∧ (updateCalendarFeed now ttl f w).world.artifact .queue = w.artifact .queue
    ∧ (updateCalendarFeed now ttl f w).world.cache.notificationRow =
        w.cache.notificationRow
    ∧ (updateCalendarFeed now ttl f w).world.cache.queueRow = w.cache.queueRow := by
  unfold updateCalendarFeed
  cases hc : (getCachedFeedData w.cache.calendarRow now ttl).1 with
  | some d => simp [setAt, setFeedMetadata, CacheState.put]
  | none =>
    cases f with
    | ok d => simp [setAt, setFeedMetadata, CacheState.put]
    | error msg => simp [setAt, setFeedMetadata]

theorem updateNotificationFeed_foreign (now ttl : Nat)
    (f : Except String (List NotificationRec)) (w : World) :
    (updateNotificationFeed now ttl f w).world.meta .calendar = w.meta .calendar
    ∧ (updateNotificationFeed now ttl f w).world.meta .queue = w.meta .queue
    ∧ (updateNotificationFeed now ttl f w).world.artifact .calendar =
        w.artifact .calendar
    ∧ (updateNotificationFeed now ttl f w).world.artifact .queue = w.artifact .queue
    ∧ (updateNotificationFeed now ttl f w).world.cache.calendarRow =
        w.cache.calendarRow
    ∧ (updateNotificationFeed now ttl f w).world.cache.queueRow = w.cache.queueRow := by
  unfold updateNotificationFeed
  cases hc : (getCachedFeedData w.cache.notificationRow now ttl).1 with
  | some d => simp [setAt, setFeedMetadata, CacheState.put]
  | none =>
    cases f with
    | ok d => simp [setAt, setFeedMetadata, CacheState.put]
    | error msg => simp [setAt, setFeedMetadata]

theorem updateQueueFeed_foreign (now ttl : Nat) (f : Except String QueuePayload)
    (w : World) :
    (updateQueueFeed now ttl f w).world.meta .calendar = w.meta .calendar
    ∧ (updateQueueFeed now ttl f w).world.meta .notification = w.meta .notification
    ∧ (updateQueueFeed now ttl f w).world.artifact .calendar = w.artifact .calendar
    ∧ (updateQueueFeed now ttl f w).world.artifact .notification =
        w.artifact .notification
    ∧ (updateQueueFeed now ttl f w).world.cache.calendarRow = w.cache.calendarRow
    ∧ (updateQueueFeed now ttl f w).world.cache.notificationRow =
        w.cache.notificationRow := by
  unfold updateQueueFeed
  cases hc : (getCachedFeedData w.cache.queueRow now ttl).1 with
  | some d => simp [setAt, setFeedMetadata, CacheState.put]
  | none =>
    cases f with
    | ok d => simp [setAt, setFeedMetadata, CacheState.put]
    | error msg => simp [setAt, setFeedMetadata]

theorem updateNotificationFeed_congr (now ttl : Nat)
    (f : Except String (List NotificationRec)) (v w : World)
    (hrow : v.cache.notificationRow = w.cache.notificationRow)
    (hart : v.artifact .notification = w.artifact .notification) :
    (updateNotificationFeed now ttl f v).world.meta .notification =
      (updateNotificationFeed now ttl f w).world.meta .notification
    ∧ (updateNotificationFeed now ttl f v).world.artifact .notification =
      (updateNotificationFeed now ttl f w).world.artifact .notification := by
  unfold updateNotificationFeed
  rw [hrow]
  cases hc : (getCachedFeedData w.cache.notificationRow now ttl).1 with
  | some d => simp [setAt, setFeedMetadata]
  | none =>
    cases f with
    | ok d => simp [setAt, setFeedMetadata]
    | error msg => simp [setAt, setFeedMetadata, hart]

theorem updateQueueFeed_congr (now ttl : Nat) (f : Except String QueuePayload)
    (v w : World)
    (hrow : v.cache.queueRow = w.cache.queueRow)
    (hart : v.artifact .queue = w.artifact .queue) :
    (updateQueueFeed now ttl f v).world.meta .queue =
      (updateQueueFeed now ttl f w).world.meta .queue
    ∧ (updateQueueFeed now ttl f v).world.artifact .queue =
      (updateQueueFeed now ttl f w).world.artifact .queue := by
  unfold updateQueueFeed
  rw [hrow]
  cases hc : (getCachedFeedData w.cache.queueRow now ttl).1 with
  | some d => simp [setAt, setFeedMetadata]
  | none =>
    cases f with
    | ok d => simp [setAt, setFeedMetadata]
    | error msg => simp [setAt, setFeedMetadata, hart]

/-- **C4**: in a full-cycle refresh the three per-kind refreshes are
independent — each kind's recorded FeedStatus and persisted artifact are
exactly those its own solo refresh would produce from the initial state,
whatever the other two kinds' fetch outcomes (including failures). -/
theorem runCycle_kind_isolation (now ttl : Nat) (fc : Except String (List Movie))
    (fn : Except String (List NotificationRec)) (fq : Except String QueuePayload)
    (w : World) :
    ((fetchAllFeeds now ttl fc fn fq w).meta .calendar =
        (updateCalendarFeed now ttl fc w).world.meta .calendar
      ∧ (fetchAllFeeds now ttl fc fn fq w).artifact .calendar =
        (updateCalendarFeed now ttl fc w).world.artifact .calendar)
    ∧ ((fetchAllFeeds now ttl fc fn fq w).meta .notification =
        (updateNotificationFeed now ttl fn w).world.meta .notification
      ∧ (fetchAllFeeds now ttl fc fn fq w).artifact .notification =
        (updateNotificationFeed now ttl fn w).world.artifact .notification)
    ∧ ((fetchAllFeeds now ttl fc fn fq w).meta .queue =
        (updateQueueFeed now ttl fq w).world.meta .queue
      ∧ (fetchAllFeeds now ttl fc fn fq w).artifact .queue =
        (updateQueueFeed now ttl fq w).world.artifact .queue) := by
  unfold fetchAllFeeds
  obtain ⟨cm_n, cm_q, ca_n, ca_q, cc_n, cc_q⟩ :=
    updateCalendarFeed_foreign now ttl fc w
  obtain ⟨nm_c, nm_q, na_c, na_q, nc_c, nc_q⟩ :=
    updateNotificationFeed_foreign now ttl fn (updateCalendarFeed now ttl fc w).world
  obtain ⟨qm_c, qm_n, qa_c, qa_n, qc_c, qc_n⟩ :=
    updateQueueFeed_foreign now ttl fq
      (updateNotificationFeed now ttl fn (updateCalendarFeed now ttl fc w).world).world
  refine ⟨⟨?_, ?_⟩, ⟨?_, ?_⟩, ⟨?_, ?_⟩⟩
  · rw [qm_c, nm_c]
  · rw [qa_c, na_c]
  · rw [qm_n]
    exact (updateNotificationFeed_congr now ttl fn _ w cc_n ca_n).1
  · rw [qa_n]
    exact (updateNotificationFeed_congr now ttl fn _ w cc_n ca_n).2
  · exact (updateQueueFeed_congr now ttl fq _ w (nc_q.trans cc_q) (na_q.trans ca_q)).1
  · exact (updateQueueFeed_congr now ttl fq _ w (nc_q.trans cc_q) (na_q.trans ca_q)).2

theorem string_ne_empty_of_data {s : String} (h : s.data ≠ []) : s ≠ "" := by
  intro hc
  rw [hc] at h
  exact h rfl

theorem jsJoin_ne_empty_of_mem {p : String} (sep : String) {parts : List String}
    (hp : p ∈ parts) (hne : p.data ≠ []) : jsJoin sep parts ≠ "" := by
  induction parts with
  | nil => cases hp
  | cons x xs ih =>
    cases xs with
    | nil =>
      rcases List.mem_singleton.1 hp with rfl
      exact string_ne_empty_of_data hne
    | cons y ys =>
      apply string_ne_empty_of_data
      show ((x ++ sep) ++ jsJoin sep (y :: ys)).data ≠ []
      rw [String.data_append, String.data_append]
      cases hp with
      | head =>
        exact List.append_ne_nil_of_left_ne_nil
          (List.append_ne_nil_of_left_ne_nil hne sep.data) _
      | tail _ hmem =>
        intro hc
        rcases List.append_eq_nil.1 hc with ⟨-, h2⟩
        exact ih hmem (String.ext h2)

theorem paragraph_data_ne (a s b : String) (ha : a.data ≠ []) :
    (a ++ s ++ b).data ≠ [] := by
  rw [String.data_append, String.data_append]
  exact List.append_ne_nil_of_left_ne_nil
    (List.append_ne_nil_of_left_ne_nil ha s.data) _

theorem queueStatusPart_mem (item : QueueItem) :
    ("<p><strong>Status:</strong> " ++ jsOrS item.status "Unknown" ++ "</p>") ∈
      queueDescriptionParts item := by
  unfold queueDescriptionParts
  simp [List.mem_append]

theorem buildQueueDescription_eq_join (item : QueueItem) :
    buildQueueDescription item = jsJoin "\n" (queueDescriptionParts item) := by
  show (if jsJoin "\n" (queueDescriptionParts item) = "" then "Queue item details."
    else jsJoin "\n" (queueDescriptionParts item)) =
      jsJoin "\n" (queueDescriptionParts item)
  rw [if_neg (jsJoin_ne_empty_of_mem "\n" (queueStatusPart_mem item)
    (paragraph_data_ne _ _ _ (by decide)))]

theorem containsStr_part_queue {n p : String} (item : QueueItem)
    (hp : p ∈ queueDescriptionParts item) (h : containsStr n p) :
    containsStr n (buildQueueDescription item) := by
  rw [buildQueueDescription_eq_join]
  exact containsStr_jsJoin "\n" hp h

theorem containsStr_part_movie {n p : String} (m : Movie)
    (hp : p ∈ movieDescriptionParts m) (hne : p.data ≠ []) (h : containsStr n p) :
    containsStr n (buildMovieDescription m) := by
  show containsStr n (if jsJoin "\n" (movieDescriptionParts m) = ""
    then "No additional information available." else jsJoin "\n" (movieDescriptionParts m))
  rw [if_neg (jsJoin_ne_empty_of_mem "\n" hp hne)]
  exact containsStr_jsJoin "\n" hp h

theorem containsStr_part_notification {n' p : String} (n : NotificationRec)
    (hp : p ∈ notificationDescriptionParts n) (hne : p.data ≠ [])
    (h : containsStr n' p) :
    containsStr n' (buildNotificationDescription n) := by
  show containsStr n' (if jsJoin "\n" (notificationDescriptionParts n) = ""
    then "Notification configuration details."
    else jsJoin "\n" (notificationDescriptionParts n))
  rw [if_neg (jsJoin_ne_empty_of_mem "\n" hp hne)]
  exact containsStr_jsJoin "\n" hp h

theorem queueOverviewPart_mem {item : QueueItem} {m : Movie} {s : String}
    (hm : item.movie = some m) (ho : m.overview = some s) (hs : s ≠ "") :
    ("<p><strong>Movie Overview:</strong> " ++ escapeHtml s ++ "</p>") ∈
      queueDescriptionParts item := by
  unfold queueDescriptionParts
  simp [hm, ho, hs, List.mem_append]

theorem movieOverviewPart_mem {m : Movie} {s : String}
    (ho : m.overview = some s) (hs : s ≠ "") :
    ("<p><strong>Overview:</strong> " ++ escapeHtml s ++ "</p>") ∈
      movieDescriptionParts m := by
  unfold movieDescriptionParts
  simp [ho, hs, List.mem_append]

theorem notificationImplPart_mem (n : NotificationRec) :
    ("<p><strong>Implementation:</strong> " ++
        escapeHtml (jsOrS n.implementationName "Unknown") ++ "</p>") ∈
      notificationDescriptionParts n := by
  unfold notificationDescriptionParts
  simp [List.mem_append]

/-- **C6** is false on the code as stated, at its own instance: the
rendered description separates the label from the value with the closing
`</strong>` tag, so the document never contains the contiguous text
"Progress: 50.0%"; and a record whose `sizeleft` is present but 0 (with
`size > 0`) gets no progress paragraph at all, because the source guards
on JS truthiness (`item.size && item.sizeleft`), not on presence. -/
theorem queue_progress_counterexample :
    ¬ (generateQueueFeed 0
        (some [progressProbe (some 1073741824) (some 536870912)])).containsText
        "Progress: 50.0%"
    ∧ ¬ containsStr "Progress"
        (buildQueueDescription (progressProbe (some 100) (some 0))) :=
  ⟨by decide, by decide⟩

/-- **C6 (amended)**: the progress paragraph is included exactly when both
`size` and `sizeleft` are truthy (present and nonzero) — in particular
`sizeleft = 0` suppresses it; when included, its value is the exact
rational `(size - sizeLeft) / size * 100` rendered by `toFixed(1)`; amid
the concrete record of spec §8 the document carries the rendered text
"Progress:</strong> 50.0%" — i.e. "Progress: 50.0%" up to the intervening
markup — and the item title "X - downloading". -/
theorem queue_progress_amended :
    (∀ size sizeleft : Option Int,
      containsStr "Progress" (buildQueueDescription (progressProbe size sizeleft)) ↔
        (numTruthy size = true ∧ numTruthy sizeleft = true))
    ∧ (∀ sz zl : Int, sz ≠ 0 → zl ≠ 0 →
        containsStr
          ("<p><strong>Progress:</strong> " ++ toFixed1 ((sz - zl) * 100) sz ++ "%</p>")
          (buildQueueDescription (progressProbe (some sz) (some zl))))
    ∧ (generateQueueFeed 0
        (some [progressProbe (some 1073741824) (some 536870912)])).containsText
        "Progress:</strong> 50.0%"
    ∧ ((generateQueueFeed 0
        (some [progressProbe (some 1073741824) (some 536870912)])).items.map
          RssItem.title) = ["X - downloading"] := by
  refine ⟨?_, ?_, by decide, by decide⟩
  · intro size sizeleft
    constructor
    · intro hc
      by_contra hneg
      have hcond : (numTruthy size && numTruthy sizeleft) = false := by
        cases h1 : numTruthy size <;> cases h2 : numTruthy sizeleft <;> simp_all
      have hdesc : buildQueueDescription (progressProbe size sizeleft) =
          "<p><strong>Status:</strong> downloading</p>" := by
        unfold buildQueueDescription queueDescriptionParts progressProbe
        simp [hcond, jsOrS, jsJoin]
      rw [hdesc] at hc
      exact absurd hc (by decide)
    · rintro ⟨h1, h2⟩
      have hmem : ("<p><strong>Progress:</strong> " ++
          toFixed1 ((size.getD 0 - sizeleft.getD 0) * 100) (size.getD 0) ++ "%</p>") ∈
            queueDescriptionParts (progressProbe size sizeleft) := by
        unfold queueDescriptionParts progressProbe
        simp [h1, h2, List.mem_append]
      exact containsStr_part_queue _ hmem
        (containsStr_append_left _ (containsStr_append_left _ (by decide)))
  · intro sz zl hsz hzl
    have h1 : numTruthy (some sz) = true := by simp [numTruthy, hsz]
    have h2 : numTruthy (some zl) = true := by simp [numTruthy, hzl]
    have hmem : ("<p><strong>Progress:</strong> " ++
        toFixed1 ((sz - zl) * 100) sz ++ "%</p>") ∈
          queueDescriptionParts (progressProbe (some sz) (some zl)) := by
      unfold queueDescriptionParts progressProbe
      simp [h1, h2, List.mem_append]
    exact containsStr_part_queue _ hmem (containsStr_refl _)

/-- **C7** is false on the code as stated: the queue builder embeds the
record's `status` text raw — a `status` of `"<script>"` reaches the
description HTML unescaped, and its escaped form never appears. -/
theorem escaping_counterexample :
    containsStr "<script>" (buildQueueDescription taintedQueueItem)
    ∧ ¬ containsStr "&lt;script&gt;" (buildQueueDescription taintedQueueItem) :=
  ⟨by decide, by decide⟩

/-- **C7 (amended)**: the escaping discipline is per-field, not uniform:
`escapeHtml` — which does eliminate every `< > " '` from its output — is
applied to the overview text (calendar and queue builders) and to the
implementation name (notification builder), while the `status` text is
embedded raw (the CDATA wrapping of the XML layer is what protects it). -/
theorem escaping_amended (s t : String) (item : QueueItem) (m : Movie)
    (n : NotificationRec)
    (hm : item.movie = some m) (ho : m.overview = some s) (hs : s ≠ "")
    (ht : item.status = some t) (htne : t ≠ "")
    (hn : n.implementationName = some s) :
    (ltChar ∉ (escapeHtml s).data ∧ gtChar ∉ (escapeHtml s).data ∧
      quotChar ∉ (escapeHtml s).data ∧ aposChar ∉ (escapeHtml s).data)
    ∧ containsStr (escapeHtml s) (buildQueueDescription item)
    ∧ containsStr (escapeHtml s) (buildMovieDescription m)
    ∧ containsStr (escapeHtml s) (buildNotificationDescription n)
    ∧ containsStr ("<p><strong>Status:</strong> " ++ t ++ "</p>")
        (buildQueueDescription item) := by
  refine ⟨escapeHtml_no_specials s, ?_, ?_, ?_, ?_⟩
  · exact containsStr_part_queue item (queueOverviewPart_mem hm ho hs)
      (containsStr_append_left _ (containsStr_append_right _ (containsStr_refl _)))
  · exact containsStr_part_movie m (movieOverviewPart_mem ho hs)
      (paragraph_data_ne _ _ _ (by decide))
      (containsStr_append_left _ (containsStr_append_right _ (containsStr_refl _)))
  · have himpl : jsOrS n.implementationName "Unknown" = s := by
      simp [jsOrS, hn, hs]
    have hp := notificationImplPart_mem n
    rw [himpl] at hp
    exact containsStr_part_notification n hp (paragraph_data_ne _ _ _ (by decide))
      (containsStr_append_left _ (containsStr_append_right _ (containsStr_refl _)))
  · have hstat : jsOrS item.status "Unknown" = t := by
      simp [jsOrS, ht, htne]
    have hp := queueStatusPart_mem item
    rw [hstat] at hp
    exact containsStr_part_queue item hp (containsStr_refl _)

/-- Witness for the amended C7 at a concrete input: the overview
`"a & b"` reaches the tainted queue record's description escaped. -/
theorem escaping_amended_witness :
    containsStr (escapeHtml "a & b") (buildQueueDescription taintedQueueItem) :=
  (escaping_amended "a & b" "<script>" taintedQueueItem { overview := some "a & b" }
    taintedNotification rfl rfl (by decide) rfl (by decide) rfl).2.1
